import Mathlib

/-!
Verification of the query-execution and response-assembly core of
`src/question_4_agent/01_create_agent.py` (class `ClinicalTrialDataAgent`).

The dataset (`self.ae_df`, a pandas DataFrame read from CSV) is modelled as a
list of column names together with a list of rows; a cell is `Option String`,
where `none` models a missing value (NaN) and `some s` a string value.  The
language-understanding oracle (`parse_question`) is out of scope: we model the
pipeline from a parsed query onwards (`execute_query`, lines 197-229, and the
result-assembly part of `ask`, lines 240-250).

Python's `str.upper()` is modelled by `pyUpper` (per-character
uppercasing); pandas `Series.str.contains(pat, na=False, regex=False)` is
modelled by the literal-substring test `containsSub` below, and
`Series.unique()` (order of first appearance, duplicates dropped) by
`uniqueFirst`.
-/

/-- A DataFrame cell: `none` is a missing value (NaN), `some s` a string. -/
abbrev Cell := Option String

/-- A DataFrame row: association list from column name to cell value.
A name absent from the list reads as a missing value. -/
abbrev Row := List (String × Cell)

/-- The in-memory table `self.ae_df`: named columns and rows. -/
structure DataFrame where
  cols : List String
  rows : List Row
deriving DecidableEq

/-- A Python value occurring in the `filter_value` field of the oracle's JSON
output: a string, an integer, or `None` (also the result of a missing key). -/
inductive PyValue where
  | str (s : String)
  | int (n : Int)
  | pynone
deriving DecidableEq

/-- Python `str(v)`: identity on strings, decimal rendering of integers,
`"None"` for `None`. -/
def pyStr : PyValue → String
  | .str s => s
  | .int n => toString n
  | .pynone => "None"

/-- The oracle's parsed JSON object as consumed by `execute_query`
(lines 199-201): `dict.get` returns `None` for a missing key, modelled by
`Option`; `match_type` defaults to `"contains"` at the use site. -/
structure ParsedQuery where
  target_column : Option String
  filter_value : PyValue
  match_type : Option String
deriving DecidableEq

/-- Read a row's cell in a column (`row[col]`): absent name reads as NaN. -/
def getVal (r : Row) (c : String) : Cell :=
  match r.lookup c with
  | some v => v
  | none => none

/-- Python membership test `target_column in df.columns` (line 204): `None`
is never equal to a column-name string. -/
def colMember : Option String → List String → Bool
  | some s, cs => cs.contains s
  | none, _ => false

/-- Rendering of `target_column` inside the f-string of the error message
(line 205): Python prints `None` as `"None"`. -/
def renderCol : Option String → String
  | some s => s
  | none => "None"

/-- Errors `execute_query` can raise: the `ValueError` of line 205 (the
message names the requested column and lists the available columns, so the
error carries both), and the pandas `KeyError` that `filtered_df["USUBJID"]`
(line 226) raises when `USUBJID` is not a dataset column. -/
inductive ExecError where
  | unknownColumn (requested : String) (available : List String)
  | keyError (key : String)
deriving DecidableEq

/-- Literal match of `pat` at the head of `hay`. -/
def subAt : List Char → List Char → Bool
  | [], _ => true
  | _ :: _, [] => false
  | a :: as, b :: bs => a == b && subAt as bs

/-- Literal substring test: `pat` occurs contiguously somewhere in `hay`.
This is `pat in hay` on Python strings, i.e. pandas
`str.contains(pat, regex=False)` on one cell: no pattern-matching
metacharacters are interpreted. -/
def containsSub : List Char → List Char → Bool
  | [], pat => subAt pat []
  | hay@(_ :: rest), pat => subAt pat hay || containsSub rest pat

/-- Python `str.upper()`: per-character uppercasing of the string. -/
def pyUpper (s : String) : String := String.mk (s.data.map Char.toUpper)

/-- The per-row mask of lines 208-219.  `exact` mode (line 211):
`df[col].str.upper() == str(fv).upper()` — on a NaN cell `str.upper()` is NaN
and NaN compares unequal to every string, hence `false`.  Any other mode
(lines 215-219): `df[col].str.upper().str.contains(str(fv).upper(), na=False,
regex=False)` — `na=False` sends NaN cells to `false`. -/
def cellMatches (matchType : Option String) (fv : PyValue) (cell : Cell) : Bool :=
  match cell with
  | none => false
  | some v =>
    if matchType.getD "contains" == "exact" then
      pyUpper v == pyUpper (pyStr fv)
    else
      containsSub (pyUpper v).data (pyUpper (pyStr fv)).data

/-- The filtered row subset `filtered_df = self.ae_df[mask]` (line 222):
rows satisfying the mask, in dataset order. -/
def matchingRows (df : DataFrame) (q : ParsedQuery) : List Row :=
  df.rows.filter fun r =>
    cellMatches q.match_type q.filter_value (getVal r (q.target_column.getD ""))

/-- Worker for `uniqueFirst`: `seen` holds the values already emitted. -/
def uniqueFirstAux (seen : List Cell) : List Cell → List Cell
  | [] => []
  | a :: l =>
    if a ∈ seen then uniqueFirstAux seen l
    else a :: uniqueFirstAux (a :: seen) l

/-- pandas `Series.unique().tolist()`: duplicates dropped, keeping the first
occurrence of each value, in order of appearance. -/
def uniqueFirst (l : List Cell) : List Cell := uniqueFirstAux [] l

/-- The value returned by `execute_query` (line 229): unique-subject count,
unique subject list, filtered rows. -/
structure QueryResult where
  subject_count : Nat
  unique_subjects : List Cell
  filtered : List Row
deriving DecidableEq

/-- `ClinicalTrialDataAgent.execute_query` (lines 197-229).  Checks that the
target column exists (lines 204-205), filters by the mask (lines 208-222),
extracts unique subject identifiers of the filtered rows (line 226) — which
raises a `KeyError` if `USUBJID` is not a dataset column — and counts them
(line 227). -/
def execute_query (df : DataFrame) (q : ParsedQuery) : Except ExecError QueryResult :=
  if colMember q.target_column df.cols = false then
    .error (.unknownColumn (renderCol q.target_column) df.cols)
  else
    let filtered := matchingRows df q
    if df.cols.contains "USUBJID" then
      let us := uniqueFirst (filtered.map fun r => getVal r "USUBJID")
      .ok ⟨us.length, us, filtered⟩
    else
      .error (.keyError "USUBJID")

/-- The `"results"` object assembled by `ask` (lines 243-249). -/
structure Results where
  unique_subject_count : Nat
  subject_ids : List Cell
  total_records : Nat
  sample_data : List Row
deriving DecidableEq

/-- Lines 243-249 of `ask`: wrap the executor's output; the sample is
`filtered_df.head(5)` when the filtered frame is nonempty, else `[]`. -/
def assembleResults (qr : QueryResult) : Results :=
  ⟨qr.subject_count, qr.unique_subjects, qr.filtered.length,
   if qr.filtered.length > 0 then qr.filtered.take 5 else []⟩

/-- `ask` from the parsed query onwards (lines 237-252): run `execute_query`
and assemble the results object; errors propagate to the caller. -/
def askResults (df : DataFrame) (q : ParsedQuery) : Except ExecError Results :=
  (execute_query df q).map assembleResults

/-! ### Properties of the literal-substring test -/

theorem subAt_iff (pat hay : List Char) : subAt pat hay = true ↔ ∃ t, hay = pat ++ t := by
  induction pat generalizing hay with
  | nil => exact ⟨fun _ => ⟨hay, rfl⟩, fun _ => rfl⟩
  | cons a as ih =>
    cases hay with
    | nil =>
      constructor
      · intro h
        simp [subAt] at h
      · rintro ⟨t, ht⟩
        rw [List.cons_append] at ht
        exact List.noConfusion ht
    | cons b bs =>
      rw [show subAt (a :: as) (b :: bs) = (a == b && subAt as bs) from rfl,
        Bool.and_eq_true, beq_iff_eq, ih]
      constructor
      · rintro ⟨rfl, t, rfl⟩
        exact ⟨t, rfl⟩
      · rintro ⟨t, ht⟩
        rw [List.cons_append] at ht
        injection ht with h1 h2
        subst h1
        exact ⟨rfl, t, h2⟩

theorem containsSub_iff (hay pat : List Char) :
    containsSub hay pat = true ↔ ∃ s t, hay = s ++ pat ++ t := by
  induction hay with
  | nil =>
    rw [show containsSub [] pat = subAt pat [] from rfl, subAt_iff]
    constructor
    · rintro ⟨t, ht⟩
      exact ⟨[], t, by simpa using ht⟩
    · rintro ⟨s, t, hst⟩
      rcases List.append_eq_nil.mp hst.symm with ⟨h1, rfl⟩
      rcases List.append_eq_nil.mp h1 with ⟨rfl, rfl⟩
      exact ⟨[], rfl⟩
  | cons b rest ih =>
    rw [show containsSub (b :: rest) pat = (subAt pat (b :: rest) || containsSub rest pat)
        from rfl,
      Bool.or_eq_true, subAt_iff, ih]
    constructor
    · rintro (⟨t, ht⟩ | ⟨s, t, hst⟩)
      · exact ⟨[], t, by simpa using ht⟩
      · exact ⟨b :: s, t, by simp [hst]⟩
    · rintro ⟨s, t, hst⟩
      cases s with
      | nil => exact Or.inl ⟨t, by simpa using hst⟩
      | cons c s2 =>
        rw [List.cons_append, List.cons_append] at hst
        injection hst with h1 h2
        exact Or.inr ⟨s2, t, h2⟩

theorem containsSub_empty_pat (hay : List Char) : containsSub hay [] = true := by
  cases hay with
  | nil => rfl
  | cons b rest => rw [show containsSub (b :: rest) [] = (subAt [] (b :: rest) || containsSub rest []) from rfl]; rfl

/-! ### Properties of `uniqueFirst` (pandas `Series.unique`) -/

theorem mem_uniqueFirstAux (l : List Cell) :
    ∀ (seen : List Cell) (x : Cell), x ∈ uniqueFirstAux seen l ↔ x ∈ l ∧ x ∉ seen := by
  induction l with
  | nil =>
    intro seen x
    simp [uniqueFirstAux]
  | cons a t ih =>
    intro seen x
    simp only [uniqueFirstAux]
    by_cases ha : a ∈ seen
    · rw [if_pos ha, ih]
      constructor
      · rintro ⟨h1, h2⟩
        exact ⟨List.mem_cons_of_mem _ h1, h2⟩
      · rintro ⟨h1, h2⟩
        rcases List.mem_cons.mp h1 with rfl | h1
        · exact absurd ha h2
        · exact ⟨h1, h2⟩
    · rw [if_neg ha, List.mem_cons, ih]
      constructor
      · rintro (rfl | ⟨h1, h2⟩)
        · exact ⟨List.mem_cons_self _ _, ha⟩
        · refine ⟨List.mem_cons_of_mem _ h1, ?_⟩
          intro hx
          exact h2 (List.mem_cons_of_mem _ hx)
      · rintro ⟨h1, h2⟩
        rcases List.mem_cons.mp h1 with rfl | h1
        · exact Or.inl rfl
        · by_cases hxa : x = a
          · exact Or.inl hxa
          · refine Or.inr ⟨h1, ?_⟩
            intro hx
            rcases List.mem_cons.mp hx with h3 | h3
            · exact hxa h3
            · exact h2 h3

theorem nodup_uniqueFirstAux (l : List Cell) :
    ∀ seen : List Cell, (uniqueFirstAux seen l).Nodup := by
  induction l with
  | nil =>
    intro seen
    simp [uniqueFirstAux]
  | cons a t ih =>
    intro seen
    simp only [uniqueFirstAux]
    by_cases ha : a ∈ seen
    · rw [if_pos ha]
      exact ih seen
    · rw [if_neg ha]
      refine List.Nodup.cons ?_ (ih (a :: seen))
      intro hmem
      exact ((mem_uniqueFirstAux t (a :: seen) a).mp hmem).2 (List.mem_cons_self _ _)

theorem length_uniqueFirstAux_le (l : List Cell) :
    ∀ seen : List Cell, (uniqueFirstAux seen l).length ≤ l.length := by
  induction l with
  | nil =>
    intro seen
    simp [uniqueFirstAux]
  | cons a t ih =>
    intro seen
    simp only [uniqueFirstAux, List.length_cons]
    by_cases ha : a ∈ seen
    · rw [if_pos ha]
      exact Nat.le_succ_of_le (ih seen)
    · rw [if_neg ha, List.length_cons]
      exact Nat.succ_le_succ (ih (a :: seen))

theorem length_uniqueFirstAux_eq_iff (l : List Cell) :
    ∀ seen : List Cell,
      ((uniqueFirstAux seen l).length = l.length ↔ l.Nodup ∧ ∀ x ∈ l, x ∉ seen) := by
  induction l with
  | nil =>
    intro seen
    simp [uniqueFirstAux]
  | cons a t ih =>
    intro seen
    simp only [uniqueFirstAux, List.length_cons]
    by_cases ha : a ∈ seen
    · rw [if_pos ha]
      constructor
      · intro h
        have hle := length_uniqueFirstAux_le t seen
        omega
      · rintro ⟨_, hall⟩
        exact absurd ha (hall a (List.mem_cons_self _ _))
    · rw [if_neg ha, List.length_cons, Nat.add_right_cancel_iff, ih (a :: seen)]
      constructor
      · rintro ⟨hn, hall⟩
        refine ⟨List.nodup_cons.mpr ⟨?_, hn⟩, ?_⟩
        · intro hat
          exact (hall a hat) (List.mem_cons_self _ _)
        · intro x hx
          rcases List.mem_cons.mp hx with rfl | hxt
          · exact ha
          · intro hxs
            exact (hall x hxt) (List.mem_cons_of_mem _ hxs)
      · rintro ⟨hn, hall⟩
        rcases List.nodup_cons.mp hn with ⟨hat, hnt⟩
        refine ⟨hnt, ?_⟩
        intro x hx hxs
        rcases List.mem_cons.mp hxs with rfl | hxs2
        · exact hat hx
        · exact (hall x (List.mem_cons_of_mem _ hx)) hxs2

theorem mem_uniqueFirst (l : List Cell) (x : Cell) : x ∈ uniqueFirst l ↔ x ∈ l := by
  rw [show uniqueFirst l = uniqueFirstAux [] l from rfl, mem_uniqueFirstAux]
  simp

theorem nodup_uniqueFirst (l : List Cell) : (uniqueFirst l).Nodup :=
  nodup_uniqueFirstAux l []

theorem length_uniqueFirst_le (l : List Cell) : (uniqueFirst l).length ≤ l.length :=
  length_uniqueFirstAux_le l []

theorem length_uniqueFirst_eq_iff (l : List Cell) :
    (uniqueFirst l).length = l.length ↔ l.Nodup := by
  rw [show uniqueFirst l = uniqueFirstAux [] l from rfl, length_uniqueFirstAux_eq_iff]
  simp

/-! ### Index-order lemmas: `uniqueFirst` keeps first-occurrence order -/

theorem indexOf_cons_self_cell (a : Cell) (t : List Cell) : (a :: t).indexOf a = 0 := by
  rw [List.indexOf_cons]
  simp

theorem indexOf_cons_ne_cell (a b : Cell) (t : List Cell) (h : b ≠ a) :
    (a :: t).indexOf b = t.indexOf b + 1 := by
  rw [List.indexOf_cons]
  have hba : (a == b) = false := beq_eq_false_iff_ne.mpr (Ne.symm h)
  rw [hba]
  rfl

theorem pairwise_indexOf_uniqueFirstAux (l : List Cell) :
    ∀ seen : List Cell,
      (uniqueFirstAux seen l).Pairwise fun x y => l.indexOf x < l.indexOf y := by
  induction l with
  | nil =>
    intro seen
    simp [uniqueFirstAux]
  | cons a t ih =>
    intro seen
    simp only [uniqueFirstAux]
    by_cases ha : a ∈ seen
    · rw [if_pos ha]
      refine List.Pairwise.imp_of_mem ?_ (ih seen)
      intro x y hx hy hlt
      have hxp := (mem_uniqueFirstAux t seen x).mp hx
      have hyp := (mem_uniqueFirstAux t seen y).mp hy
      have hxa : x ≠ a := fun hh => hxp.2 (by rw [hh]; exact ha)
      have hya : y ≠ a := fun hh => hyp.2 (by rw [hh]; exact ha)
      rw [indexOf_cons_ne_cell _ _ _ hxa, indexOf_cons_ne_cell _ _ _ hya]
      exact Nat.succ_lt_succ hlt
    · rw [if_neg ha]
      refine List.Pairwise.cons ?_ ?_
      · intro y hy
        have hyp := (mem_uniqueFirstAux t (a :: seen) y).mp hy
        have hya : y ≠ a := fun hh => hyp.2 (by rw [hh]; exact List.mem_cons_self a seen)
        rw [indexOf_cons_self_cell, indexOf_cons_ne_cell _ _ _ hya]
        exact Nat.succ_pos _
      · refine List.Pairwise.imp_of_mem ?_ (ih (a :: seen))
        intro x y hx hy hlt
        have hxp := (mem_uniqueFirstAux t (a :: seen) x).mp hx
        have hyp := (mem_uniqueFirstAux t (a :: seen) y).mp hy
        have hxa : x ≠ a := fun hh => hxp.2 (by rw [hh]; exact List.mem_cons_self a seen)
        have hya : y ≠ a := fun hh => hyp.2 (by rw [hh]; exact List.mem_cons_self a seen)
        rw [indexOf_cons_ne_cell _ _ _ hxa, indexOf_cons_ne_cell _ _ _ hya]
        exact Nat.succ_lt_succ hlt

theorem pairwise_indexOf_uniqueFirst (l : List Cell) :
    (uniqueFirst l).Pairwise fun x y => l.indexOf x < l.indexOf y :=
  pairwise_indexOf_uniqueFirstAux l []

/-! ### Shape lemmas for `execute_query` -/

theorem execute_query_ok_elim (df : DataFrame) (q : ParsedQuery) (qr : QueryResult)
    (h : execute_query df q = .ok qr) :
    qr.filtered = matchingRows df q ∧
    qr.unique_subjects = uniqueFirst (qr.filtered.map fun r => getVal r "USUBJID") ∧
    qr.subject_count = qr.unique_subjects.length := by
  unfold execute_query at h
  split at h
  · exact Except.noConfusion h
  · split at h
    · injection h with h1
      subst h1
      exact ⟨rfl, rfl, rfl⟩
    · exact Except.noConfusion h

theorem execute_query_eq_ok (df : DataFrame) (q : ParsedQuery)
    (h1 : colMember q.target_column df.cols = true)
    (h2 : df.cols.contains "USUBJID" = true) :
    execute_query df q =
      .ok ⟨(uniqueFirst ((matchingRows df q).map fun r => getVal r "USUBJID")).length,
        uniqueFirst ((matchingRows df q).map fun r => getVal r "USUBJID"),
        matchingRows df q⟩ := by
  unfold execute_query
  rw [h1, h2]
  simp

theorem execute_query_unknown_elim (df : DataFrame) (q : ParsedQuery) (s : String)
    (hcol : q.target_column = some s) (habs : df.cols.contains s = false) :
    execute_query df q = .error (.unknownColumn s df.cols) := by
  unfold execute_query
  have hm : colMember q.target_column df.cols = false := by
    rw [hcol]
    exact habs
  rw [hm]
  simp [renderCol, hcol]

/-! ### Duplicate counting -/

theorem nodup_iff_count_le_one_cell (l : List Cell) :
    l.Nodup ↔ ∀ x : Cell, l.count x ≤ 1 := by
  induction l with
  | nil => simp
  | cons a t ih =>
    rw [List.nodup_cons]
    constructor
    · rintro ⟨hat, hnt⟩ x
      by_cases hxa : x = a
      · rw [hxa, List.count_cons_self, List.count_eq_zero_of_not_mem hat]
      · have hbeq : (a == x) = false := beq_eq_false_iff_ne.mpr (Ne.symm hxa)
        rw [List.count_cons, hbeq, if_neg (by simp), Nat.add_zero]
        exact ih.mp hnt x
    · intro h
      constructor
      · intro hat
        have h1 := h a
        rw [List.count_cons_self] at h1
        have hpos := List.count_pos_iff.mpr hat
        omega
      · refine ih.mpr fun x => ?_
        have h1 := h x
        rw [List.count_cons] at h1
        exact le_trans (Nat.le_add_right _ _) h1

/-! ### Congruence in the filter value: only its stringification matters -/

theorem cellMatches_pyStr_congr (mt : Option String) (f1 f2 : PyValue)
    (h : pyStr f1 = pyStr f2) (c : Cell) : cellMatches mt f1 c = cellMatches mt f2 c := by
  cases c with
  | none => rfl
  | some v =>
    unfold cellMatches
    rw [h]

theorem execute_query_pyStr_congr (df : DataFrame) (q : ParsedQuery) (f2 : PyValue)
    (h : pyStr q.filter_value = pyStr f2) :
    execute_query df q = execute_query df (ParsedQuery.mk q.target_column f2 q.match_type) := by
  have hm : matchingRows df q = matchingRows df (ParsedQuery.mk q.target_column f2 q.match_type) := by
    unfold matchingRows
    exact List.filter_congr fun r _ => cellMatches_pyStr_congr q.match_type _ _ h _
  simp only [execute_query]
  rw [hm]

/-! ### Concrete data used by witnesses and counterexamples -/

/-- Example AE record: subject S1, severity MILD, term "Headache". -/
def exRow1 : Row := [("USUBJID", some "S1"), ("AESEV", some "MILD"), ("AETERM", some "Headache")]

/-- Example AE record: subject S2, severity SEVERE, term "Severe Headache Disorder". -/
def exRow2 : Row :=
  [("USUBJID", some "S2"), ("AESEV", some "SEVERE"), ("AETERM", some "Severe Headache Disorder")]

/-- Example AE record: subject S1, severity SEVERE, missing term. -/
def exRow3 : Row := [("USUBJID", some "S1"), ("AESEV", some "SEVERE"), ("AETERM", none)]

/-- Example dataset with three adverse-event records of two subjects. -/
def exDF : DataFrame := ⟨["USUBJID", "AESEV", "AETERM"], [exRow1, exRow2, exRow3]⟩

/-! ### Claims -/

/-- C1: under `exact` match mode, a row whose target-column cell holds the
string `v` matches the filter iff `v` case-folded to uppercase equals the
filter value's stringification case-folded to uppercase; both sides enter the
comparison only through `pyUpper`, so matching is invariant to the case of the
stored value and of the filter value. -/
theorem C1_exact_match_iff_casefold_equal (q : ParsedQuery) (tc : String) (r : Row)
    (v : String) (hmode : q.match_type = some "exact") (hval : getVal r tc = some v) :
    cellMatches q.match_type q.filter_value (getVal r tc) = true ↔
      pyUpper v = pyUpper (pyStr q.filter_value) := by
  rw [hval, hmode]
  simp [cellMatches]

/-- Witness for C1: stored value "Severe" matches filter value "sEvErE" in
`exact` mode despite differing case. -/
theorem C1_witness :
    cellMatches (ParsedQuery.mk (some "AESEV") (PyValue.str "sEvErE") (some "exact")).match_type
        (ParsedQuery.mk (some "AESEV") (PyValue.str "sEvErE") (some "exact")).filter_value
        (getVal [("AESEV", some "Severe")] "AESEV") = true ↔
      pyUpper "Severe" = pyUpper (pyStr (PyValue.str "sEvErE")) :=
  C1_exact_match_iff_casefold_equal _ "AESEV" _ "Severe" rfl rfl

/-- C2: when the match mode is absent or anything other than `"exact"` (the
`contains` default), a row whose target-column cell holds the string `v`
matches iff the uppercased filter value occurs as a literal contiguous
substring of the uppercased `v` (no pattern-matching metacharacters: the
decomposition is plain list concatenation). -/
theorem C2_contains_default_iff_substring (q : ParsedQuery) (tc : String) (r : Row)
    (v : String) (hmode : q.match_type ≠ some "exact") (hval : getVal r tc = some v) :
    cellMatches q.match_type q.filter_value (getVal r tc) = true ↔
      ∃ s t, (pyUpper v).data = s ++ (pyUpper (pyStr q.filter_value)).data ++ t := by
  rw [hval]
  have hm : (q.match_type.getD "contains" == "exact") = false := by
    cases hq : q.match_type with
    | none => rfl
    | some s =>
      have hs : s ≠ "exact" := fun hh => hmode (by rw [hq, hh])
      simpa using hs
  show (if q.match_type.getD "contains" == "exact" then
      pyUpper v == pyUpper (pyStr q.filter_value)
    else containsSub (pyUpper v).data (pyUpper (pyStr q.filter_value)).data) = true ↔ _
  rw [hm, if_neg (by simp)]
  exact containsSub_iff _ _

/-- Witness for C2: "headache" (filter) occurs inside stored value
"Severe Headache Disorder" under the default `contains` mode (mode absent). -/
theorem C2_witness :
    cellMatches (ParsedQuery.mk (some "AETERM") (PyValue.str "headache") none).match_type
        (ParsedQuery.mk (some "AETERM") (PyValue.str "headache") none).filter_value
        (getVal [("AETERM", some "Severe Headache Disorder")] "AETERM") = true ↔
      ∃ s t, (pyUpper "Severe Headache Disorder").data =
        s ++ (pyUpper (pyStr (PyValue.str "headache"))).data ++ t :=
  C2_contains_default_iff_substring _ "AETERM" _ "Severe Headache Disorder" (by decide) rfl

/-- C3: a filter whose target column is absent from the dataset's columns
fails with the unknown-column error, which carries the requested column name
and the list of available columns; this holds for every absent column name. -/
theorem C3_unknown_column_error (df : DataFrame) (q : ParsedQuery) (s : String)
    (hcol : q.target_column = some s) (habs : df.cols.contains s = false) :
    execute_query df q = .error (.unknownColumn s df.cols) :=
  execute_query_unknown_elim df q s hcol habs

/-- Witness for C3 at the absent column name "NOTACOLUMN". -/
theorem C3_witness :
    execute_query exDF (ParsedQuery.mk (some "NOTACOLUMN") (PyValue.str "x") none) =
      .error (.unknownColumn "NOTACOLUMN" exDF.cols) :=
  C3_unknown_column_error exDF _ "NOTACOLUMN" rfl (by decide)

/-- C4: over an existing target column (in a dataset carrying the USUBJID
column), execution succeeds, and a row whose target-column cell is missing
never matches — under any match mode — and never appears in the filtered
subset: missing values are non-matching, not an error. -/
theorem C4_null_never_matches (df : DataFrame) (q : ParsedQuery) (tc : String) (r : Row)
    (hcol : q.target_column = some tc) (hmem : df.cols.contains tc = true)
    (hsub : df.cols.contains "USUBJID" = true) (hnull : getVal r tc = none) :
    (execute_query df q).isOk = true ∧
    cellMatches q.match_type q.filter_value (getVal r tc) = false ∧
    r ∉ matchingRows df q := by
  have h1 : colMember q.target_column df.cols = true := by
    rw [hcol]
    exact hmem
  refine ⟨?_, ?_, ?_⟩
  · rw [execute_query_eq_ok df q h1 hsub]
    rfl
  · rw [hnull]
    rfl
  · intro hmem2
    unfold matchingRows at hmem2
    have hmask := (List.mem_filter.mp hmem2).2
    rw [hcol] at hmask
    simp only [Option.getD_some] at hmask
    rw [hnull] at hmask
    exact Bool.noConfusion hmask

/-- Witness for C4: the record with a missing AETERM value does not match a
`contains` filter on AETERM, and execution still succeeds. -/
theorem C4_witness :
    (execute_query exDF (ParsedQuery.mk (some "AETERM") (PyValue.str "headache")
      (some "contains"))).isOk = true ∧
    cellMatches (ParsedQuery.mk (some "AETERM") (PyValue.str "headache")
        (some "contains")).match_type
      (ParsedQuery.mk (some "AETERM") (PyValue.str "headache")
        (some "contains")).filter_value
      (getVal exRow3 "AETERM") = false ∧
    exRow3 ∉ matchingRows exDF
      (ParsedQuery.mk (some "AETERM") (PyValue.str "headache") (some "contains")) :=
  C4_null_never_matches exDF _ "AETERM" exRow3 rfl (by decide) (by decide) rfl

/-- Example parsed query: `contains` on AETERM with value "headache", mode absent. -/
def exQ5 : ParsedQuery := ParsedQuery.mk (some "AETERM") (PyValue.str "headache") none

/-- The results object `ask` assembles for `exQ5` over `exDF`. -/
def exRes5 : Results := Results.mk 2 [some "S1", some "S2"] 2 [exRow1, exRow2]

/-- C5: the assembled sample is the first 5 matching rows verbatim — hence
never longer than 5, exactly 5 when at least 5 rows match, all matching rows
when fewer than 5 match, and empty when none match. -/
theorem C5_sample_first_five (df : DataFrame) (q : ParsedQuery) (res : Results)
    (h : askResults df q = .ok res) :
    res.sample_data = (matchingRows df q).take 5 ∧
    res.sample_data.length ≤ 5 ∧
    (5 ≤ (matchingRows df q).length → res.sample_data.length = 5) ∧
    ((matchingRows df q).length < 5 → res.sample_data = matchingRows df q) ∧
    (matchingRows df q = [] → res.sample_data = []) := by
  unfold askResults at h
  cases hex : execute_query df q with
  | error e =>
    rw [hex] at h
    exact Except.noConfusion h
  | ok qr =>
    rw [hex] at h
    simp only [Except.map] at h
    injection h with h1
    subst h1
    rcases execute_query_ok_elim df q qr hex with ⟨hf, _, _⟩
    have hsample : (assembleResults qr).sample_data = qr.filtered.take 5 := by
      show (if qr.filtered.length > 0 then qr.filtered.take 5 else []) = qr.filtered.take 5
      by_cases hl : qr.filtered.length > 0
      · rw [if_pos hl]
      · rw [if_neg hl]
        have hnil : qr.filtered = [] := List.length_eq_zero.mp (Nat.eq_zero_of_not_pos hl)
        rw [hnil]
        rfl
    rw [hsample, hf]
    refine ⟨rfl, ?_, ?_, ?_, ?_⟩
    · rw [List.length_take]
      exact min_le_left _ _
    · intro h5
      rw [List.length_take]
      exact Nat.min_eq_left h5
    · intro h5
      exact List.take_of_length_le (Nat.le_of_lt h5)
    · intro hnil
      rw [hnil]
      rfl

/-- Witness for C5 over the 3-row example dataset: 2 rows match "headache". -/
theorem C5_witness :
    exRes5.sample_data = (matchingRows exDF exQ5).take 5 ∧
    exRes5.sample_data.length ≤ 5 ∧
    (5 ≤ (matchingRows exDF exQ5).length → exRes5.sample_data.length = 5) ∧
    ((matchingRows exDF exQ5).length < 5 → exRes5.sample_data = matchingRows exDF exQ5) ∧
    (matchingRows exDF exQ5 = [] → exRes5.sample_data = []) :=
  C5_sample_first_five exDF exQ5 exRes5 rfl

/-- Example parsed query: `exact` on AESEV with value "severe". -/
def exQ6 : ParsedQuery := ParsedQuery.mk (some "AESEV") (PyValue.str "severe") (some "exact")

/-- The executor's output for `exQ6` over `exDF`: rows 2 and 3 match; the
subject list is ordered S2 before S1 because S1's first row does not match. -/
def exQR6 : QueryResult := QueryResult.mk 2 [some "S2", some "S1"] [exRow2, exRow3]

/-- C6 counterexample: over `exDF` (S1 MILD, S2 SEVERE, S1 SEVERE) the exact
"severe" filter returns subjects [S2, S1] — ordered by first occurrence among
the matching rows — whereas ordering by first occurrence in the unfiltered
dataset would require S1 (dataset index 0) before S2 (dataset index 1): the
dataset-first-occurrence pairwise ordering fails on the returned list. -/
theorem C6_counterexample :
    execute_query exDF exQ6 = Except.ok exQR6 ∧
    ¬ exQR6.unique_subjects.Pairwise (fun x y =>
      (exDF.rows.map fun r => getVal r "USUBJID").indexOf x <
      (exDF.rows.map fun r => getVal r "USUBJID").indexOf y) :=
  ⟨rfl, by decide⟩

/-- C6 (amended): the returned subject list is exactly the distinct subject
identifiers of the matching rows, duplicates collapsed, ordered by first
occurrence among the matching rows (not by first occurrence in the unfiltered
dataset), and the unique-subject count equals the length of that list. -/
theorem C6_amended_unique_subjects (df : DataFrame) (q : ParsedQuery) (qr : QueryResult)
    (h : execute_query df q = .ok qr) :
    qr.unique_subjects = uniqueFirst (qr.filtered.map fun r => getVal r "USUBJID") ∧
    qr.unique_subjects.Nodup ∧
    (∀ x, x ∈ qr.unique_subjects ↔ x ∈ qr.filtered.map fun r => getVal r "USUBJID") ∧
    qr.unique_subjects.Pairwise (fun x y =>
      (qr.filtered.map fun r => getVal r "USUBJID").indexOf x <
      (qr.filtered.map fun r => getVal r "USUBJID").indexOf y) ∧
    qr.subject_count = qr.unique_subjects.length := by
  rcases execute_query_ok_elim df q qr h with ⟨hf, hu, hc⟩
  refine ⟨hu, ?_, ?_, ?_, hc⟩
  · rw [hu]
    exact nodup_uniqueFirst _
  · intro x
    rw [hu]
    exact mem_uniqueFirst _ _
  · rw [hu]
    exact pairwise_indexOf_uniqueFirst _

/-- Witness for the amended C6 at the counterexample dataset and query. -/
theorem C6_amended_witness :
    exQR6.unique_subjects = uniqueFirst (exQR6.filtered.map fun r => getVal r "USUBJID") ∧
    exQR6.unique_subjects.Nodup ∧
    (∀ x, x ∈ exQR6.unique_subjects ↔ x ∈ exQR6.filtered.map fun r => getVal r "USUBJID") ∧
    exQR6.unique_subjects.Pairwise (fun x y =>
      (exQR6.filtered.map fun r => getVal r "USUBJID").indexOf x <
      (exQR6.filtered.map fun r => getVal r "USUBJID").indexOf y) ∧
    exQR6.subject_count = exQR6.unique_subjects.length :=
  C6_amended_unique_subjects exDF exQ6 exQR6 rfl

/-- C7: the unique-subject count never exceeds the matching-row count, and
they are equal iff no subject identifier occurs more than once among the
matching rows. -/
theorem C7_subject_count_le_records (df : DataFrame) (q : ParsedQuery) (qr : QueryResult)
    (h : execute_query df q = .ok qr) :
    qr.subject_count ≤ qr.filtered.length ∧
    (qr.subject_count = qr.filtered.length ↔
      ∀ s : Cell, (qr.filtered.map fun r => getVal r "USUBJID").count s ≤ 1) := by
  rcases execute_query_ok_elim df q qr h with ⟨hf, hu, hc⟩
  have hlen : (qr.filtered.map fun r => getVal r "USUBJID").length = qr.filtered.length := by
    rw [List.length_map]
  constructor
  · rw [hc, hu]
    exact le_trans (length_uniqueFirst_le _) (le_of_eq hlen)
  · rw [hc, hu, ← hlen, length_uniqueFirst_eq_iff]
    exact nodup_iff_count_le_one_cell _

/-- Witness for C7 at the example: each of S2, S1 has one matching record, so
the unique-subject count 2 equals the matching-row count 2. -/
theorem C7_witness :
    exQR6.subject_count ≤ exQR6.filtered.length ∧
    (exQR6.subject_count = exQR6.filtered.length ↔
      ∀ s : Cell, (exQR6.filtered.map fun r => getVal r "USUBJID").count s ≤ 1) :=
  C7_subject_count_le_records exDF exQ6 exQR6 rfl

/-- The results object `ask` assembles for `exQ6` over `exDF`. -/
def exRes6 : Results := Results.mk 2 [some "S2", some "S1"] 2 [exRow2, exRow3]

/-- C8: execution is deterministic and idempotent — the embedded executor and
assembler are functions of the filter specification and the dataset alone
(the source reads `self.ae_df` and the parsed query and mutates nothing), so
any two runs on the unchanged dataset, including repeated runs, return
identical results. -/
theorem C8_deterministic_idempotent (df : DataFrame) (q : ParsedQuery)
    (r1 r2 : Except ExecError QueryResult) (a1 a2 : Except ExecError Results)
    (h1 : execute_query df q = r1) (h2 : execute_query df q = r2)
    (h3 : askResults df q = a1) (h4 : askResults df q = a2) :
    r1 = r2 ∧ a1 = a2 := by
  constructor
  · rw [← h1, ← h2]
  · rw [← h3, ← h4]

/-- Witness for C8: two runs at the example dataset and query agree. -/
theorem C8_witness :
    (Except.ok exQR6 : Except ExecError QueryResult) = Except.ok exQR6 ∧
    (Except.ok exRes6 : Except ExecError Results) = Except.ok exRes6 :=
  C8_deterministic_idempotent exDF exQ6 (.ok exQR6) (.ok exQR6) (.ok exRes6) (.ok exRes6)
    rfl rfl rfl rfl

/-- C9: a non-string filter value (an integer, here) over an existing column
is not a hard error: execution succeeds, and its result is exactly the result
of running the same query with the stringified value under the normal
matching semantics (`str(filter_value)` on line 211/216 is all the executor
ever sees of the value). -/
theorem C9_nonstring_value_coerced (df : DataFrame) (q : ParsedQuery) (n : Int) (tc : String)
    (hfv : q.filter_value = PyValue.int n) (hcol : q.target_column = some tc)
    (hmem : df.cols.contains tc = true) (hsub : df.cols.contains "USUBJID" = true) :
    (execute_query df q).isOk = true ∧
    execute_query df q =
      execute_query df (ParsedQuery.mk q.target_column (PyValue.str (toString n)) q.match_type) := by
  have h1 : colMember q.target_column df.cols = true := by
    rw [hcol]
    exact hmem
  constructor
  · rw [execute_query_eq_ok df q h1 hsub]
    rfl
  · refine execute_query_pyStr_congr df q _ ?_
    rw [hfv]
    rfl

/-- Witness for C9: filtering AESEV by the integer 7 succeeds (matching
nothing) and agrees with filtering by the string "7". -/
theorem C9_witness :
    (execute_query exDF (ParsedQuery.mk (some "AESEV") (PyValue.int 7)
      (some "contains"))).isOk = true ∧
    execute_query exDF (ParsedQuery.mk (some "AESEV") (PyValue.int 7) (some "contains")) =
      execute_query exDF (ParsedQuery.mk (some "AESEV") (PyValue.str (toString (7 : Int)))
        (some "contains")) :=
  C9_nonstring_value_coerced exDF _ 7 "AESEV" rfl rfl (by decide) (by decide)

/-- C10: with the default `contains` mode and the empty string as filter
value, a row matches exactly when its target-column cell is non-missing (the
empty pattern is a substring of every string, and missing cells never match),
so the filtered subset is precisely the non-null rows of that column. -/
theorem C10_empty_value_matches_nonnull (df : DataFrame) (q : ParsedQuery) (tc : String)
    (hmode : q.match_type ≠ some "exact") (hfv : q.filter_value = PyValue.str "")
    (hcol : q.target_column = some tc) :
    (∀ r : Row, cellMatches q.match_type q.filter_value (getVal r tc) = (getVal r tc).isSome) ∧
    matchingRows df q = df.rows.filter fun r => (getVal r tc).isSome := by
  have hm : (q.match_type.getD "contains" == "exact") = false := by
    cases hq : q.match_type with
    | none => rfl
    | some s =>
      have hs : s ≠ "exact" := fun hh => hmode (by rw [hq, hh])
      simpa using hs
  have hcell : ∀ c : Cell, cellMatches q.match_type q.filter_value c = c.isSome := by
    intro c
    cases c with
    | none => rfl
    | some v =>
      show (if q.match_type.getD "contains" == "exact" then
          pyUpper v == pyUpper (pyStr q.filter_value)
        else containsSub (pyUpper v).data (pyUpper (pyStr q.filter_value)).data) = true
      rw [hm, if_neg (by simp), hfv]
      have hpat : (pyUpper (pyStr (PyValue.str ""))).data = [] := rfl
      rw [hpat]
      exact containsSub_empty_pat _
  refine ⟨fun r => hcell _, ?_⟩
  unfold matchingRows
  refine List.filter_congr fun r _ => ?_
  rw [hcol]
  simp only [Option.getD_some]
  exact hcell _

/-- Witness for C10: the empty-string `contains` filter on AETERM keeps
exactly the two rows with a non-missing AETERM value. -/
theorem C10_witness :
    (∀ r : Row, cellMatches (ParsedQuery.mk (some "AETERM") (PyValue.str "") none).match_type
      (ParsedQuery.mk (some "AETERM") (PyValue.str "") none).filter_value
      (getVal r "AETERM") = (getVal r "AETERM").isSome) ∧
    matchingRows exDF (ParsedQuery.mk (some "AETERM") (PyValue.str "") none) =
      exDF.rows.filter fun r => (getVal r "AETERM").isSome :=
  C10_empty_value_matches_nonnull exDF _ "AETERM" (by decide) rfl rfl
